import Mathlib

/-!
Shallow embedding of the algorithmic core of the quantum-fortuna-predictive-ai
repository (file src/data/quantumPredictionEngine.ts and related sources), plus
theorems settling the frozen claims about its specification.

Modelling conventions:

* JavaScript numbers that hold integers are modelled as `Int`; fractional
  values (outputs of `Math.random()`, the fixed weight tables) are modelled as
  exact rationals `Rat`.  No claim in scope depends on float rounding.
* `Math.random()` is modelled as a stream `Nat → Rat` of draws, with the
  contract `0 ≤ r ∧ r < 1` stated as a hypothesis where a property needs it.
* In `generateQuantumRandomNumbers` the candidate integer
  `num = Math.floor(min + quantumFactor * (max - min + 1))` is computed from
  the draws through `Math.sin`/`Math.cos`; the transcendental dressing is not
  representable over `Rat`, so the entropy source for that function is
  abstracted one step later: a stream `Nat → Int` of the candidate integers
  themselves (which may fall outside `[min, max]`: the source's own range
  check `num >= min && num <= max` is kept in the embedding).
* The `while` loops are embedded with an explicit fuel parameter; `none`
  means the loop has not finished within the given number of iterations.
-/

namespace QuantumFortuna

/-- Loop body of `generateQuantumRandomNumbers`
(src/data/quantumPredictionEngine.ts lines 415-439).  State: `i` is the
position in the entropy stream, `acc` the `result` array.  Each iteration
draws the next candidate `num` and appends it when `min <= num <= max` and it
was not used before; the loop exits as soon as `result.length` reaches
`target` (the source's `actualCount`). -/
def gqrnAux (stream : Nat → Int) (mn mx target : Int) :
    Nat → Nat → List Int → Option (List Int)
  | 0, _, acc => if target ≤ (acc.length : Int) then some acc else none
  | fuel + 1, i, acc =>
    if target ≤ (acc.length : Int) then some acc
    else
      if mn ≤ stream i ∧ stream i ≤ mx ∧ stream i ∉ acc then
        gqrnAux stream mn mx target fuel (i + 1) (acc ++ [stream i])
      else
        gqrnAux stream mn mx target fuel (i + 1) acc

/-- Embedding of `generateQuantumRandomNumbers(count, min, max)`
(src/data/quantumPredictionEngine.ts lines 399-442).  The source computes
`possibleNumbers = max - min + 1` and `actualCount = Math.min(count,
possibleNumbers)` and then runs the rejection loop until `actualCount`
unique in-range numbers have been collected.  The result is returned in
insertion order (the caller sorts). -/
def generateQuantumRandomNumbers (stream : Nat → Int) (count mn mx : Int)
    (fuel : Nat) : Option (List Int) :=
  let possibleNumbers := mx - mn + 1
  let actualCount := min count possibleNumbers
  gqrnAux stream mn mx actualCount fuel 0 []

/-- Loop body of `generateUniqueRandomNumbers`
(src/data/quantumPredictionEngine.ts lines 478-484).  Each iteration draws
`r = Math.random()` and adds `Math.floor(r * (max - min + 1)) + min` to the
set; a JavaScript `Set` keeps insertion order and ignores duplicates, which
is what the membership test models. -/
def gurnAux (stream : Nat → Rat) (mn mx count : Int) :
    Nat → Nat → List Int → Option (List Int)
  | 0, _, acc => if count ≤ (acc.length : Int) then some acc else none
  | fuel + 1, i, acc =>
    if count ≤ (acc.length : Int) then some acc
    else
      let num := Int.floor (stream i * ((mx - mn + 1 : Int) : Rat)) + mn
      if num ∈ acc then gurnAux stream mn mx count fuel (i + 1) acc
      else gurnAux stream mn mx count fuel (i + 1) (acc ++ [num])

/-- Embedding of `generateUniqueRandomNumbers(min, max, count)`
(src/data/quantumPredictionEngine.ts lines 478-484): collect `count`
distinct draws in a set, then `Array.from(numbers).sort((a, b) => a - b)`. -/
def generateUniqueRandomNumbers (stream : Nat → Rat) (mn mx count : Int)
    (fuel : Nat) : Option (List Int) :=
  (gurnAux stream mn mx count fuel 0 []).map (List.insertionSort (· ≤ ·))

/-- The closed integer range `[mn, mx]` as an ascending list; reference
value for full-range results. -/
def rangeList (mn mx : Int) : List Int :=
  (List.range (mx - mn + 1).toNat).map (fun k : Nat => mn + (k : Int))

theorem mem_rangeList {mn mx x : Int} :
    x ∈ rangeList mn mx ↔ mn ≤ x ∧ x ≤ mx := by
  unfold rangeList
  simp only [List.mem_map, List.mem_range]
  constructor
  · rintro ⟨k, hk, rfl⟩
    omega
  · rintro ⟨h1, h2⟩
    exact ⟨(x - mn).toNat, by omega, by omega⟩

theorem rangeList_nodup (mn mx : Int) : (rangeList mn mx).Nodup := by
  unfold rangeList
  exact (List.nodup_range _).map (fun a b h => by omega)

theorem rangeList_sorted (mn mx : Int) :
    (rangeList mn mx).Sorted (· ≤ ·) := by
  unfold rangeList
  refine List.Pairwise.map _ (fun a b h => ?_) (List.pairwise_lt_range _)
  omega

theorem rangeList_length (mn mx : Int) :
    (rangeList mn mx).length = (mx - mn + 1).toNat := by
  simp [rangeList]

/-- Loop invariant for `gqrnAux`: starting from a duplicate-free, in-range
accumulator no longer than the target, a successful run returns a
duplicate-free list of in-range numbers of length exactly `target`. -/
theorem gqrnAux_spec (stream : Nat → Int) (mn mx target : Int) :
    ∀ (fuel i : Nat) (acc l : List Int), acc.Nodup →
      (∀ x ∈ acc, mn ≤ x ∧ x ≤ mx) → (acc.length : Int) ≤ target →
      gqrnAux stream mn mx target fuel i acc = some l →
      l.Nodup ∧ (∀ x ∈ l, mn ≤ x ∧ x ≤ mx) ∧ (l.length : Int) = target := by
  intro fuel
  induction fuel with
  | zero =>
    intro i acc l hnd hin hle h
    by_cases hc : target ≤ (acc.length : Int)
    · simp only [gqrnAux, if_pos hc, Option.some.injEq] at h
      subst h
      exact ⟨hnd, hin, by omega⟩
    · simp only [gqrnAux, if_neg hc] at h
      exact absurd h (by simp)
  | succ fuel ih =>
    intro i acc l hnd hin hle h
    by_cases hc : target ≤ (acc.length : Int)
    · simp only [gqrnAux, if_pos hc, Option.some.injEq] at h
      subst h
      exact ⟨hnd, hin, by omega⟩
    · simp only [gqrnAux, if_neg hc] at h
      by_cases hg : mn ≤ stream i ∧ stream i ≤ mx ∧ stream i ∉ acc
      · rw [if_pos hg] at h
        refine ih (i + 1) (acc ++ [stream i]) l ?_ ?_ ?_ h
        · simp [List.nodup_append, hnd, hg.2.2]
        · intro x hx
          rcases List.mem_append.1 hx with hx | hx
          · exact hin x hx
          · simp only [List.mem_singleton] at hx
            subst hx
            exact ⟨hg.1, hg.2.1⟩
        · simp only [List.length_append, List.length_singleton]
          push_cast
          omega
      · rw [if_neg hg] at h
        exact ih (i + 1) acc l hnd hin hle h

/-- The candidate `Math.floor(r * (max - min + 1)) + min` built from a draw
`r ∈ [0, 1)` always lands in `[min, max]` when the range is nonempty. -/
theorem floor_candidate_mem {r : Rat} {mn mx : Int}
    (h0 : 0 ≤ r) (h1 : r < 1) (hr : mn ≤ mx) :
    mn ≤ Int.floor (r * ((mx - mn + 1 : Int) : Rat)) + mn ∧
      Int.floor (r * ((mx - mn + 1 : Int) : Rat)) + mn ≤ mx := by
  have hpos : (0 : Rat) < ((mx - mn + 1 : Int) : Rat) := by
    exact_mod_cast (by omega : (0 : Int) < mx - mn + 1)
  have hnn : (0 : Int) ≤ Int.floor (r * ((mx - mn + 1 : Int) : Rat)) :=
    Int.floor_nonneg.2 (mul_nonneg h0 hpos.le)
  have hlt : r * ((mx - mn + 1 : Int) : Rat) < ((mx - mn + 1 : Int) : Rat) := by
    calc r * ((mx - mn + 1 : Int) : Rat)
        < 1 * ((mx - mn + 1 : Int) : Rat) := mul_lt_mul_of_pos_right h1 hpos
      _ = ((mx - mn + 1 : Int) : Rat) := one_mul _
  have hfl : Int.floor (r * ((mx - mn + 1 : Int) : Rat)) < mx - mn + 1 :=
    Int.floor_lt.2 hlt
  omega

/-- Loop invariant for `gurnAux`, under the `Math.random` contract that every
draw lies in `[0, 1)`. -/
theorem gurnAux_spec (stream : Nat → Rat) (mn mx count : Int)
    (hstream : ∀ j, 0 ≤ stream j ∧ stream j < 1) (hr : mn ≤ mx) :
    ∀ (fuel i : Nat) (acc l : List Int), acc.Nodup →
      (∀ x ∈ acc, mn ≤ x ∧ x ≤ mx) → (acc.length : Int) ≤ count →
      gurnAux stream mn mx count fuel i acc = some l →
      l.Nodup ∧ (∀ x ∈ l, mn ≤ x ∧ x ≤ mx) ∧ (l.length : Int) = count := by
  intro fuel
  induction fuel with
  | zero =>
    intro i acc l hnd hin hle h
    by_cases hc : count ≤ (acc.length : Int)
    · simp only [gurnAux, if_pos hc, Option.some.injEq] at h
      subst h
      exact ⟨hnd, hin, by omega⟩
    · simp only [gurnAux, if_neg hc] at h
      exact absurd h (by simp)
  | succ fuel ih =>
    intro i acc l hnd hin hle h
    by_cases hc : count ≤ (acc.length : Int)
    · simp only [gurnAux, if_pos hc, Option.some.injEq] at h
      subst h
      exact ⟨hnd, hin, by omega⟩
    · simp only [gurnAux, if_neg hc] at h
      by_cases hmem : Int.floor (stream i * ((mx - mn + 1 : Int) : Rat)) + mn ∈ acc
      · rw [if_pos hmem] at h
        exact ih (i + 1) acc l hnd hin hle h
      · rw [if_neg hmem] at h
        have hcand := floor_candidate_mem (hstream i).1 (hstream i).2 hr
        refine ih (i + 1)
          (acc ++ [Int.floor (stream i * ((mx - mn + 1 : Int) : Rat)) + mn]) l
          ?_ ?_ ?_ h
        · refine hnd.append (List.nodup_singleton _) ?_
          intro x hx hx'
          simp only [List.mem_singleton] at hx'
          subst hx'
          exact hmem hx
        · intro x hx
          rcases List.mem_append.1 hx with hx | hx
          · exact hin x hx
          · simp only [List.mem_singleton] at hx
            subst hx
            exact hcand
        · simp only [List.length_append, List.length_singleton]
          push_cast
          omega

/-- Claim C1: for every valid input (`0 < count ≤ max - min + 1`,
`min ≤ max`) and every entropy stream obeying the `Math.random` contract,
when `generateUniqueRandomNumbers` returns within the fuel bound it returns
exactly `count` pairwise-distinct elements of `[min, max]`, sorted
ascending. -/
theorem claim_C1_sampleUnique_valid
    (stream : Nat → Rat) (mn mx count : Int) (fuel : Nat) (l : List Int)
    (hstream : ∀ j, 0 ≤ stream j ∧ stream j < 1)
    (hpos : 0 < count) (hle : count ≤ mx - mn + 1)
    (hrun : generateUniqueRandomNumbers stream mn mx count fuel = some l) :
    (l.length : Int) = count ∧ l.Nodup ∧ (∀ x ∈ l, mn ≤ x ∧ x ≤ mx) ∧
      l.Sorted (· ≤ ·) := by
  have hr : mn ≤ mx := by omega
  simp only [generateUniqueRandomNumbers, Option.map_eq_some'] at hrun
  obtain ⟨l₀, hl₀, rfl⟩ := hrun
  obtain ⟨hnd, hin, hlen⟩ :=
    gurnAux_spec stream mn mx count hstream hr fuel 0 [] l₀ (by simp)
      (by simp) (by simp only [List.length_nil, Nat.cast_zero]; omega) hl₀
  have hperm : List.Perm (List.insertionSort (· ≤ ·) l₀) l₀ :=
    List.perm_insertionSort _ l₀
  refine ⟨?_, ?_, ?_, List.sorted_insertionSort _ l₀⟩
  · rw [hperm.length_eq]
    exact hlen
  · exact hperm.nodup_iff.2 hnd
  · intro x hx
    exact hin x (hperm.mem_iff.1 hx)

/-- Witness for claim C1 at the concrete input `(count, min, max) = (1, 1, 6)`
with the constant-zero entropy stream. -/
theorem claim_C1_witness_run :
    generateUniqueRandomNumbers (fun _ => 0) 1 6 1 1 = some [1] := by
  simp only [generateUniqueRandomNumbers, gurnAux]
  norm_num [List.insertionSort, List.orderedInsert]

theorem claim_C1_witness :
    generateUniqueRandomNumbers (fun _ => 0) 1 6 1 1 = some [1] ∧
      (([1] : List Int).length : Int) = 1 :=
  ⟨claim_C1_witness_run,
    (claim_C1_sampleUnique_valid (fun _ => 0) 1 6 1 1 [1]
      (fun _ => by norm_num) (by norm_num) (by norm_num)
      claim_C1_witness_run).1⟩

/-- Counterexample to claim C2: with `count = 8` and range `[1, 6]` the
source raises no error and returns no failure: it silently clamps
`actualCount` to `6` and succeeds with a partial result of 6 elements. -/
theorem claim_C2_counterexample :
    generateQuantumRandomNumbers (fun i : Nat => 1 + (i : Int)) 8 1 6 6 =
        some [1, 2, 3, 4, 5, 6] ∧
      (([1, 2, 3, 4, 5, 6] : List Int).length : Int) ≠ 8 := by
  constructor
  · decide
  · decide

/-- Claim C2 (amended): for `count > max - min + 1` (with `min ≤ max`),
`generateQuantumRandomNumbers` raises no `InvalidRangeError`; it silently
clamps the requested count, and whenever it returns it returns exactly
`max - min + 1` elements (a partial result). -/
theorem claim_C2_amended_silent_clamp
    (stream : Nat → Int) (count mn mx : Int) (fuel : Nat) (l : List Int)
    (hmn : mn ≤ mx) (hgt : mx - mn + 1 < count)
    (hrun : generateQuantumRandomNumbers stream count mn mx fuel = some l) :
    (l.length : Int) = mx - mn + 1 := by
  have htarget : min count (mx - mn + 1) = mx - mn + 1 := by omega
  simp only [generateQuantumRandomNumbers] at hrun
  rw [htarget] at hrun
  exact (gqrnAux_spec stream mn mx (mx - mn + 1) fuel 0 [] l (by simp)
    (by simp) (by simp only [List.length_nil, Nat.cast_zero]; omega) hrun).2.2

/-- Witness for amended claim C2 at `count = 9`, range `[1, 6]`. -/
theorem claim_C2_witness :
    generateQuantumRandomNumbers (fun i : Nat => 1 + (i : Int)) 9 1 6 6 =
        some [1, 2, 3, 4, 5, 6] ∧
      (([1, 2, 3, 4, 5, 6] : List Int).length : Int) = 6 - 1 + 1 :=
  ⟨by decide,
    claim_C2_amended_silent_clamp (fun i : Nat => 1 + (i : Int)) 9 1 6 6
      [1, 2, 3, 4, 5, 6] (by norm_num) (by norm_num) (by decide)⟩

/-- Counterexample to claim C3: for `count = 0` (a non-positive count) the
source raises no `InvalidBoundsError`: it immediately returns the empty
list as a successful result (here with fuel 0: no loop iteration runs). -/
theorem claim_C3_counterexample :
    generateQuantumRandomNumbers (fun _ : Nat => 1) 0 1 6 0 = some [] := by
  decide

/-- Claim C3 (amended): for `max < min` or `count <= 0` the source raises no
error at all; `generateQuantumRandomNumbers` returns the empty list
immediately, before any sampling iteration (fuel 0 suffices). -/
theorem claim_C3_amended_empty_result
    (stream : Nat → Int) (count mn mx : Int)
    (h : count ≤ 0 ∨ mx < mn) :
    generateQuantumRandomNumbers stream count mn mx 0 = some [] := by
  simp only [generateQuantumRandomNumbers, gqrnAux, List.length_nil,
    Nat.cast_zero]
  rw [if_pos (by omega)]

/-- Witness for amended claim C3 at the inverted range `min = 6 > 1 = max`. -/
theorem claim_C3_witness :
    generateQuantumRandomNumbers (fun _ : Nat => 1) 6 6 1 0 = some [] :=
  claim_C3_amended_empty_result (fun _ : Nat => 1) 6 6 1 (Or.inr (by norm_num))

/-- Claim C4: on a valid input with `count = max - min + 1`, whenever
`generateQuantumRandomNumbers` returns, the result contains every element
of `[min, max]` exactly once, and sorting it (as the caller
`generatePredictionSet` does before display) yields exactly the ascending
full range. -/
theorem claim_C4_full_range
    (stream : Nat → Int) (count mn mx : Int) (fuel : Nat) (l : List Int)
    (hpos : 0 < count) (hcnt : count = mx - mn + 1)
    (hrun : generateQuantumRandomNumbers stream count mn mx fuel = some l) :
    l.Nodup ∧ (∀ x, x ∈ l ↔ mn ≤ x ∧ x ≤ mx) ∧
      List.insertionSort (· ≤ ·) l = rangeList mn mx := by
  have htarget : min count (mx - mn + 1) = count := by omega
  simp only [generateQuantumRandomNumbers] at hrun
  rw [htarget] at hrun
  obtain ⟨hnd, hin, hlen⟩ :=
    gqrnAux_spec stream mn mx count fuel 0 [] l (by simp) (by simp)
      (by simp only [List.length_nil, Nat.cast_zero]; omega) hrun
  have hsub : l ⊆ rangeList mn mx := fun x hx => mem_rangeList.2 (hin x hx)
  have hlen2 : (rangeList mn mx).length ≤ l.length := by
    rw [rangeList_length]
    omega
  have hperm : List.Perm l (rangeList mn mx) :=
    (List.subperm_of_subset hnd hsub).perm_of_length_le hlen2
  refine ⟨hnd, ?_, ?_⟩
  · intro x
    rw [← @mem_rangeList mn mx x]
    exact hperm.mem_iff
  · exact List.eq_of_perm_of_sorted
      ((List.perm_insertionSort _ l).trans hperm)
      (List.sorted_insertionSort _ l) (rangeList_sorted mn mx)

/-- Witness for claim C4 at `(count, min, max) = (6, 1, 6)` with a
descending candidate stream: the raw result is a permutation of the range
and its sorted form is exactly `[1, 2, 3, 4, 5, 6]`. -/
theorem claim_C4_witness :
    generateQuantumRandomNumbers (fun i : Nat => 6 - (i : Int)) 6 1 6 6 =
        some [6, 5, 4, 3, 2, 1] ∧
      List.insertionSort (· ≤ ·) ([6, 5, 4, 3, 2, 1] : List Int) =
        rangeList 1 6 :=
  ⟨by decide,
    (claim_C4_full_range (fun i : Nat => 6 - (i : Int)) 6 1 6 6
      [6, 5, 4, 3, 2, 1] (by norm_num) (by norm_num) (by decide)).2.2⟩

/-- Once the constant candidate `mn` is already in the accumulator, the
rejection loop of `generateQuantumRandomNumbers` makes no further progress:
it runs out of any amount of fuel. -/
theorem gqrnAux_const_stuck (mn mx target : Int) :
    ∀ (fuel i : Nat) (acc : List Int), mn ∈ acc → (acc.length : Int) < target →
      gqrnAux (fun _ => mn) mn mx target fuel i acc = none := by
  intro fuel
  induction fuel with
  | zero =>
    intro i acc hmem hlt
    simp only [gqrnAux]
    rw [if_neg (by omega)]
  | succ fuel ih =>
    intro i acc hmem hlt
    simp only [gqrnAux]
    rw [if_neg (by omega), if_neg (by simp [hmem])]
    exact ih (i + 1) acc hmem hlt

/-- Claim C5 (amended): `generateQuantumRandomNumbers` has no deterministic
full-range fallback and its termination depends on the entropy values: on
any valid input with `count ≥ 2`, an entropy source that keeps producing
the same candidate `min` stalls the rejection loop forever (no fuel bound
suffices). -/
theorem claim_C5_amended_no_fallback
    (mn mx count : Int) (fuel : Nat)
    (hmn : mn ≤ mx) (h2 : 2 ≤ count) (hle : count ≤ mx - mn + 1) :
    generateQuantumRandomNumbers (fun _ => mn) count mn mx fuel = none := by
  have htarget : min count (mx - mn + 1) = count := by omega
  simp only [generateQuantumRandomNumbers]
  rw [htarget]
  cases fuel with
  | zero =>
    simp only [gqrnAux, List.length_nil, Nat.cast_zero]
    rw [if_neg (by omega)]
  | succ fuel =>
    simp only [gqrnAux, List.length_nil, Nat.cast_zero]
    rw [if_neg (by omega), if_pos ⟨le_refl mn, hmn, by simp⟩]
    simp only [List.nil_append]
    refine gqrnAux_const_stuck mn mx count fuel 1 [mn] (by simp) ?_
    simp only [List.length_singleton, Nat.cast_one]
    omega

/-- Counterexample to claim C5: on the valid input `(2, 1, 6)` the sampler
does not terminate under a constant entropy source, even with a fuel budget
far beyond the linear bound a deterministic full-range strategy would
need. -/
theorem claim_C5_counterexample :
    generateQuantumRandomNumbers (fun _ : Nat => 1) 2 1 6 100 = none := by
  decide

/-- Witness for amended claim C5 at `(count, min, max) = (2, 1, 6)`,
fuel 7. -/
theorem claim_C5_witness :
    generateQuantumRandomNumbers (fun _ : Nat => 1) 2 1 6 7 = none :=
  claim_C5_amended_no_fallback 1 6 2 7 (by norm_num) (by norm_num)
    (by norm_num)

/-- Index-aware map: `Object.entries(...).map` where each entry consumes one
`Math.random()` draw, indexed by entry position. -/
def mapWithIndex (f : Nat → α → β) : Nat → List α → List β
  | _, [] => []
  | i, a :: as => f i a :: mapWithIndex f (i + 1) as

/-- The `baseImportance` table of `generateFeatureImportance`
(src/data/quantumPredictionEngine.ts lines 330-336). -/
def baseImportance : List (String × Rat) :=
  [("frequency", 35 / 100), ("recency", 25 / 100), ("entropy", 20 / 100),
    ("cooccurrence", 15 / 100), ("seasonality", 5 / 100)]

/-- The `variation` constant of `generateFeatureImportance` (line 339). -/
def importanceVariation : Rat := 1 / 10

/-- Embedding of `generateFeatureImportance(lotteryType)`
(src/data/quantumPredictionEngine.ts lines 327-346): each base weight is
perturbed by `Math.random() * variation * 2 - variation` and clamped with
`Math.min(0.95, Math.max(0.05, ...))`.  The `lotteryType` parameter is
accepted and, as in the source body, never used. -/
def generateFeatureImportance (lotteryType : String) (stream : Nat → Rat) :
    List (String × Rat) :=
  mapWithIndex
    (fun i kv =>
      (kv.1,
        min (95 / 100)
          (max (5 / 100)
            (kv.2 + (stream i * importanceVariation * 2 - importanceVariation)))))
    0 baseImportance

/-- The clamp `min 0.95 (max 0.05 x)` lands in `[0.05, 0.95]` for every
input. -/
theorem clamp_bounds (x : Rat) :
    5 / 100 ≤ min (95 / 100) (max (5 / 100) x) ∧
      min (95 / 100) (max (5 / 100) x) ≤ 95 / 100 :=
  ⟨le_min (by norm_num) (le_max_left _ _), min_le_left _ _⟩

/-- Claim C6: for every lottery type and entropy stream,
`generateFeatureImportance` returns exactly one entry per label of the
fixed requested label set, in order, and every value lies in `[0, 1]`. -/
theorem claim_C6_metrics_shape (lotteryType : String) (stream : Nat → Rat) :
    (generateFeatureImportance lotteryType stream).map Prod.fst =
        ["frequency", "recency", "entropy", "cooccurrence", "seasonality"] ∧
      ∀ p ∈ generateFeatureImportance lotteryType stream,
        0 ≤ p.2 ∧ p.2 ≤ 1 := by
  constructor
  · simp [generateFeatureImportance, baseImportance, mapWithIndex]
  · intro p hp
    simp only [generateFeatureImportance, baseImportance, mapWithIndex,
      List.mem_cons, List.not_mem_nil, or_false] at hp
    rcases hp with rfl | rfl | rfl | rfl | rfl <;>
      exact ⟨le_trans (by norm_num) (clamp_bounds _).1,
        le_trans (clamp_bounds _).2 (by norm_num)⟩

/-- Witness for claim C6 with the constant-zero entropy stream: the label
list is exact and the "frequency" entry evaluates to `0.25 ∈ [0, 1]`. -/
theorem claim_C6_witness :
    ("frequency", (1 : Rat) / 4) ∈
        generateFeatureImportance "emirates_mega7" (fun _ => 0) ∧
      0 ≤ (1 : Rat) / 4 ∧ (1 : Rat) / 4 ≤ 1 := by
  have hmem : ("frequency", (1 : Rat) / 4) ∈
      generateFeatureImportance "emirates_mega7" (fun _ => 0) := by
    simp only [generateFeatureImportance, baseImportance, importanceVariation,
      mapWithIndex, List.mem_cons]
    norm_num
  exact ⟨hmem,
    (claim_C6_metrics_shape "emirates_mega7" (fun _ => 0)).2 _ hmem⟩

/-- Claim C10: every value produced by `generateFeatureImportance` lies in
the tighter interval `[0.05, 0.95]` enforced by the clamp
`Math.min(0.95, Math.max(0.05, value + jitter))`. -/
theorem claim_C10_tight_bounds (lotteryType : String) (stream : Nat → Rat)
    (p : String × Rat)
    (hp : p ∈ generateFeatureImportance lotteryType stream) :
    5 / 100 ≤ p.2 ∧ p.2 ≤ 95 / 100 := by
  simp only [generateFeatureImportance, baseImportance, mapWithIndex,
    List.mem_cons, List.not_mem_nil, or_false] at hp
  rcases hp with rfl | rfl | rfl | rfl | rfl <;> exact clamp_bounds _

/-- Witness for claim C10: with the constant-zero stream the "seasonality"
entry is clamped up to exactly `0.05`, inside `[0.05, 0.95]`. -/
theorem claim_C10_witness :
    ("seasonality", (5 : Rat) / 100) ∈
        generateFeatureImportance "india_lotto" (fun _ => 0) ∧
      5 / 100 ≤ (5 : Rat) / 100 ∧ (5 : Rat) / 100 ≤ 95 / 100 := by
  have hmem : ("seasonality", (5 : Rat) / 100) ∈
      generateFeatureImportance "india_lotto" (fun _ => 0) := by
    simp only [generateFeatureImportance, baseImportance, importanceVariation,
      mapWithIndex, List.mem_cons]
    norm_num
  exact ⟨hmem, claim_C10_tight_bounds "india_lotto" (fun _ => 0) _ hmem⟩

/-- `QuantumKernelParams` (src/data/quantumPredictionEngine.ts lines 15-21);
the string-literal union types are modelled as strings. -/
structure QuantumKernelParams where
  entanglementDepth : Int
  quantumCircuitLayers : Int
  featureMap : String
  kernelType : String
  optimizationLevel : Int
deriving DecidableEq

/-- `QuantumPredictionConfig` (lines 26-34). -/
structure QuantumPredictionConfig where
  kernelParams : QuantumKernelParams
  ensembleSize : Int
  confidenceThreshold : Rat
  historicalDataWeight : Rat
  quantumNoiseModel : String
  adaptiveLearningRate : Rat
  featureEngineeringDepth : Int
deriving DecidableEq

/-- `defaultQuantumConfig` (lines 39-53). -/
def defaultQuantumConfig : QuantumPredictionConfig :=
  { kernelParams :=
      { entanglementDepth := 3, quantumCircuitLayers := 2,
        featureMap := "PauliFeatureMap", kernelType := "hybrid",
        optimizationLevel := 2 },
    ensembleSize := 5, confidenceThreshold := 85 / 100,
    historicalDataWeight := 7 / 10, quantumNoiseModel := "depolarizing",
    adaptiveLearningRate := 1 / 100, featureEngineeringDepth := 3 }

/-- Per-lottery configuration record returned by
`getLotteryConfiguration` (lines 263-320).  Lotteries without special
numbers leave the two special fields at 0, matching the JavaScript access
of absent fields through the destructuring defaults in
`generatePredictionSet` (line 364). -/
structure LotteryConfig where
  numberCount : Int
  numberRange : Int
  specialNumbers : Bool
  specialNumberCount : Int
  specialNumberRange : Int
  drawFrequency : String
  historicalDataDepth : Int
deriving DecidableEq

/-- Embedding of `getLotteryConfiguration` (lines 263-320). -/
def getLotteryConfiguration (lotteryType : String) : LotteryConfig :=
  if lotteryType = "emirates_mega7" then
    ⟨7, 49, false, 0, 0, "weekly", 100⟩
  else if lotteryType = "emirates_easy6" then
    ⟨6, 42, false, 0, 0, "weekly", 100⟩
  else if lotteryType = "us_powerball" then
    ⟨5, 69, true, 1, 26, "twice-weekly", 200⟩
  else if lotteryType = "euro_millions" then
    ⟨5, 50, true, 2, 12, "twice-weekly", 150⟩
  else if lotteryType = "india_lotto" then
    ⟨6, 49, false, 0, 0, "weekly", 80⟩
  else
    ⟨6, 49, false, 0, 0, "weekly", 100⟩

/-- A historical draw record as consumed by `engineerFeatures`
(`draw.numbers || []`, `draw.drawNumber || 0`). -/
structure DrawRecord where
  numbers : List Int
  drawNumber : Int
deriving DecidableEq

/-- The mutable fields of class `QuantumPredictionEngine` (lines 81-91):
`config`, `historicalData`, `featureMatrix` and `supportedLotteries`.
`lotteryConfigurations` is a pure cache of `getLotteryConfiguration` and is
represented by that function itself. -/
structure EngineState where
  config : QuantumPredictionConfig
  historicalData : List DrawRecord
  featureMatrix : List (List Rat)
  supportedLotteries : List String
deriving DecidableEq

/-- Engine construction (constructor, lines 97-102): caller-supplied config
merged over the default, empty data arrays, the fixed supported-lottery
list. -/
def mkEngine (config : QuantumPredictionConfig) : EngineState :=
  { config := config, historicalData := [], featureMatrix := [],
    supportedLotteries :=
      ["emirates_mega7", "emirates_easy6", "us_powerball", "euro_millions",
        "india_lotto"] }

/-- Embedding of `engineerFeatures` (lines 145-180) on the call path used by
`loadHistoricalData`, where `lotteryType` is not passed and so
`lotteryConfig` is null and no special-number split happens.  JavaScript
edge values for empty rows (NaN mean, infinite min/max) are modelled as the
total Rat division `x / 0 = 0` and `minimum?/maximum?` defaulting to 0;
no claim depends on them. -/
def engineerFeatures (data : List DrawRecord) : List (List Rat) :=
  data.map (fun draw =>
    let numbers := draw.numbers
    let mean : Rat := ((numbers.sum : Int) : Rat) / ((numbers.length : Nat) : Rat)
    let variance : Rat :=
      ((numbers.map (fun n : Int => ((n : Rat) - mean) ^ 2)).sum) /
        ((numbers.length : Nat) : Rat)
    let mn : Int := (numbers.min?).getD 0
    let mx : Int := (numbers.max?).getD 0
    [mean, variance, (mn : Rat), (mx : Rat), ((mx - mn : Int) : Rat),
      ((draw.drawNumber : Int) : Rat)])

/-- Embedding of `loadHistoricalData` (lines 118-129): replaces the stored
data and recomputes the feature matrix.  This is one of the two methods
that do mutate the engine state. -/
def loadHistoricalData (s : EngineState) (data : List DrawRecord) :
    EngineState :=
  { s with historicalData := data, featureMatrix := engineerFeatures data }

/-- Embedding of `setParameters` (lines 135-137): the spread-merge of a
partial parameter object is modelled as applying an update function to the
current config. -/
def setParameters (s : EngineState)
    (update : QuantumPredictionConfig → QuantumPredictionConfig) :
    EngineState :=
  { s with config := update s.config }

/-- The strategy pool of `getRandomStrategy` (lines 566-578). -/
def strategyChoices : List String :=
  ["Non-Linear Dynamics", "Temporal Pattern Mining", "Multi-Modal Fusion",
    "Quantum Probability Field", "Strategic Value Play", "Hybrid Ensemble",
    "Chaos Theory Emergence", "Historical Resonance"]

/-- Embedding of `getRandomStrategy` (lines 566-578): a uniform pick from
the pool, `strategies[Math.floor(Math.random() * strategies.length)]`. -/
def getRandomStrategy (r : Rat) : String :=
  strategyChoices.getD (Int.floor (r * (strategyChoices.length : Rat))).toNat ""

/-- Per-strategy rationale table of `generateRationale` (lines 494-520),
with the default pool for unknown strategies (lines 547-551). -/
def strategyRationaleTable (strategy : String) : List String :=
  if strategy = "Quantum Neural Convergence" then
    ["Quantum circuit analysis reveals strong probability amplitudes",
      "Neural network fusion with quantum kernels optimizes selection",
      "Entanglement patterns suggest high coherence in number selection"]
  else if strategy = "Non-Linear Dynamics" then
    ["Chaos theory analysis of historical patterns reveals attractor states",
      "Fractal dimension analysis suggests emergent number patterns",
      "Lyapunov exponent optimization for maximum divergence from common selections"]
  else if strategy = "Temporal Pattern Mining" then
    ["Time-series analysis reveals cyclical patterns in historical draws",
      "Seasonal decomposition highlights recurring number combinations",
      "Autocorrelation analysis suggests strong temporal dependencies"]
  else if strategy = "Multi-Modal Fusion" then
    ["Ensemble of quantum and classical models with weighted voting",
      "Bayesian model averaging with quantum prior distributions",
      "Hybrid quantum-classical architecture with reinforcement learning"]
  else if strategy = "Quantum Probability Field" then
    ["Quantum field theory applied to probability distributions",
      "Path integral formulation optimizes across multiple universes",
      "Quantum annealing process converges on optimal number selection"]
  else
    ["Advanced algorithmic analysis of historical patterns",
      "Statistical optimization with machine learning enhancement",
      "Probabilistic modeling with entropy maximization"]

/-- Per-lottery rationale additions of `generateRationale`
(lines 523-544); empty for types outside the table, matching the
`if (lotteryType && lotteryRationales[lotteryType])` guard. -/
def lotteryRationaleTable (lotteryType : String) : List String :=
  if lotteryType = "emirates_mega7" then
    ["Emirates Mega7 historical pattern analysis shows favorable probability distribution",
      "Quantum analysis of Emirates Mega7 draws indicates these numbers are underrepresented"]
  else if lotteryType = "emirates_easy6" then
    ["Emirates Easy6 draw patterns suggest these numbers are due for appearance",
      "Statistical anomalies in Emirates Easy6 history support this prediction"]
  else if lotteryType = "us_powerball" then
    ["US Powerball frequency analysis shows these numbers have favorable probability",
      "Quantum entanglement patterns specific to Powerball draws favor these selections"]
  else if lotteryType = "euro_millions" then
    ["EuroMillions historical data shows a trend favoring these numbers",
      "Quantum circuit optimization for EuroMillions parameters suggests this combination"]
  else if lotteryType = "india_lotto" then
    ["India Lotto draw analysis indicates these numbers have higher probability",
      "Statistical patterns in India Lotto history support this prediction"]
  else
    []

/-- Embedding of `generateRationale(strategy, numbers, lotteryType)`
(lines 493-560): look up the strategy pool (or the default pool), append
the lottery-specific entries, then pick one entry uniformly.  The
`numbers` argument is accepted and, as in the source, never read. -/
def generateRationale (strategy : String) (numbers : List Int)
    (lotteryType : String) (r : Rat) : String :=
  let strategyRationales :=
    strategyRationaleTable strategy ++ lotteryRationaleTable lotteryType
  strategyRationales.getD
    (Int.floor (r * (strategyRationales.length : Rat))).toNat ""

/-- `PredictionSet` as built by `generatePredictionSet` (lines 379-388). -/
structure PredictionSet where
  id : String
  name : String
  numbers : List Int
  bonus : List Int
  confidence : Rat
  strategy : String
  rationale : String
  expectedValue : Rat
deriving DecidableEq

/-- Embedding of `generatePredictionSet` (lines 356-389): draw the main
numbers (and bonus numbers when the configuration has special numbers),
sort them, and attach rationale, confidence `90 + rand * 9` and expected
value `7 + rand * 2`.  `candMain`/`candBonus` are the candidate streams for
the two sampler calls; `r 0`, `r 1`, `r 2` are the scalar draws. -/
def generatePredictionSet (id strategy lotteryType : String)
    (cfg : LotteryConfig) (candMain candBonus : Nat → Int) (r : Nat → Rat)
    (fuel : Nat) : Option PredictionSet :=
  match generateQuantumRandomNumbers candMain cfg.numberCount 1
      cfg.numberRange fuel with
  | none => none
  | some numbers =>
    match (if cfg.specialNumbers ∧ 0 < cfg.specialNumberCount then
        generateQuantumRandomNumbers candBonus cfg.specialNumberCount 1
          cfg.specialNumberRange fuel
      else some []) with
    | none => none
    | some bonus =>
      some
        { id := id, name := strategy,
          numbers := List.insertionSort (· ≤ ·) numbers,
          bonus := List.insertionSort (· ≤ ·) bonus,
          confidence := 90 + r 0 * 9, strategy := strategy,
          rationale := generateRationale strategy numbers lotteryType (r 1),
          expectedValue := 7 + r 2 * 2 }

/-- `quantumMetrics` of `QuantumPredictionResult` (lines 62-68). -/
structure QuantumMetrics where
  entanglementScore : Rat
  quantumAdvantage : Rat
  circuitDepth : Int
  featureImportance : List (String × Rat)
  uncertaintyEstimate : Rat
deriving DecidableEq

/-- `QuantumPredictionResult` (lines 58-75) without `executionStats`, whose
fields are wall-clock readings of `performance.now()` and carry no
specified property. -/
structure QuantumPredictionResult where
  primaryPrediction : PredictionSet
  alternativeSets : List PredictionSet
  lotteryType : String
  quantumMetrics : QuantumMetrics
deriving DecidableEq

/-- The entropy consumed by one `generatePrediction` call.  JavaScript uses
one global `Math.random()` sequence; it is modelled as one stream per draw
site (candidate streams for each sampler call, per-set scalar draws, the
metric draws, strategy-pick draws and the top-level score draws), which is
equivalent for the stated properties since no draw is consumed by two
sites. -/
structure Entropy where
  cand : Nat → Nat → Int
  setDraws : Nat → Nat → Rat
  strategyDraws : Nat → Rat
  metric : Nat → Rat
  scalar : Nat → Rat

/-- The prediction-set id `QF-<TYPE>-<date>-00<n>` (lines 211, 222). -/
def predictionId (lotteryType targetDate : String) (n : Nat) : String :=
  "QF-" ++ lotteryType.toUpper ++ "-" ++ targetDate ++ "-00" ++ toString n

/-- Embedding of `generatePrediction(lotteryType, targetDate)`
(lines 196-256): one primary set, `ensembleSize` alternative sets with
randomly picked strategies, then the quantum metrics including
`generateFeatureImportance`.  The state is threaded explicitly; the method
body contains no assignment to `this`, so the returned state is the input
state.  The `executionStats` timing block (`performance.now()`) is outside
the embedding. -/
def generatePrediction (s : EngineState) (e : Entropy)
    (lotteryType targetDate : String) (fuel : Nat) :
    Option (QuantumPredictionResult × EngineState) :=
  let lotteryConfig := getLotteryConfiguration lotteryType
  match generatePredictionSet (predictionId lotteryType targetDate 1)
      "Quantum Neural Convergence" lotteryType lotteryConfig (e.cand 0)
      (e.cand 1) (e.setDraws 0) fuel with
  | none => none
  | some primaryPrediction =>
    match (List.range s.config.ensembleSize.toNat).mapM (fun i =>
        generatePredictionSet (predictionId lotteryType targetDate (i + 2))
          (getRandomStrategy (e.strategyDraws i)) lotteryType lotteryConfig
          (e.cand (2 * i + 2)) (e.cand (2 * i + 3)) (e.setDraws (i + 1))
          fuel) with
    | none => none
    | some alternativeSets =>
      some
        ({ primaryPrediction := primaryPrediction,
           alternativeSets := alternativeSets,
           lotteryType := lotteryType,
           quantumMetrics :=
             { entanglementScore := 85 / 100 + e.scalar 0 * (1 / 10),
               quantumAdvantage := 3 / 2 + e.scalar 1 * (1 / 2),
               circuitDepth :=
                 s.config.kernelParams.quantumCircuitLayers *
                   s.config.kernelParams.entanglementDepth,
               featureImportance :=
                 generateFeatureImportance lotteryType e.metric,
               uncertaintyEstimate := 15 / 100 + e.scalar 2 * (1 / 10) } },
          s)

/-- Whatever the sampling outcome, a successful `generatePrediction` run
carries `generateFeatureImportance` of its own metric draws as the
`featureImportance` field: the sampled numbers never flow into it. -/
theorem generatePrediction_featureImportance
    (s : EngineState) (e : Entropy) (lotteryType targetDate : String)
    (fuel : Nat) (r : QuantumPredictionResult) (s2 : EngineState)
    (h : generatePrediction s e lotteryType targetDate fuel =
      some (r, s2)) :
    r.quantumMetrics.featureImportance =
      generateFeatureImportance lotteryType e.metric := by
  simp only [generatePrediction] at h
  split at h
  · exact absurd h (by simp)
  · split at h
    · exact absurd h (by simp)
    · simp only [Option.some.injEq, Prod.mk.injEq] at h
      rw [← h.1]

/-- Claim C7: the derived metrics depend only on their own entropy draws:
two `generatePrediction` runs from the same state with the same metric
draws produce identical `featureImportance` values, regardless of the
candidate streams (and hence of which numbers were sampled). -/
theorem claim_C7_metrics_independent
    (s : EngineState) (e1 e2 : Entropy) (lotteryType targetDate : String)
    (fuel : Nat) (r1 r2 : QuantumPredictionResult) (s1 s2 : EngineState)
    (hm : e1.metric = e2.metric)
    (h1 : generatePrediction s e1 lotteryType targetDate fuel =
      some (r1, s1))
    (h2 : generatePrediction s e2 lotteryType targetDate fuel =
      some (r2, s2)) :
    r1.quantumMetrics.featureImportance =
      r2.quantumMetrics.featureImportance := by
  rw [generatePrediction_featureImportance s e1 lotteryType targetDate fuel
      r1 s1 h1,
    generatePrediction_featureImportance s e2 lotteryType targetDate fuel
      r2 s2 h2, hm]

/-- Claim C8: `generatePrediction` leaves the engine state (configuration,
historical data, feature matrix, supported lotteries) unchanged: any
successful run returns the input state. -/
theorem claim_C8_state_frame
    (s : EngineState) (e : Entropy) (lotteryType targetDate : String)
    (fuel : Nat) (r : QuantumPredictionResult) (s2 : EngineState)
    (h : generatePrediction s e lotteryType targetDate fuel =
      some (r, s2)) :
    s2 = s := by
  simp only [generatePrediction] at h
  split at h
  · exact absurd h (by simp)
  · split at h
    · exact absurd h (by simp)
    · simp only [Option.some.injEq, Prod.mk.injEq] at h
      exact h.2.symm

/-- A concrete engine for the witnesses: default parameters except
`ensembleSize = 0` (the caller may override any parameter, constructor
lines 97-102). -/
def testEngine : EngineState :=
  mkEngine { defaultQuantumConfig with ensembleSize := 0 }

/-- Concrete entropy with ascending candidates. -/
def testEntropy : Entropy :=
  { cand := fun _ i => 1 + (i : Int), setDraws := fun _ _ => 0,
    strategyDraws := fun _ => 0, metric := fun _ => 0, scalar := fun _ => 0 }

/-- Concrete entropy with descending candidates (different sampled numbers,
same metric draws as `testEntropy`). -/
def testEntropyDesc : Entropy :=
  { cand := fun _ i => 6 - (i : Int), setDraws := fun _ _ => 0,
    strategyDraws := fun _ => 0, metric := fun _ => 0, scalar := fun _ => 0 }

theorem testEntropy_run_ne_none :
    generatePrediction testEngine testEntropy "x" "d" 6 ≠ none := by
  simp [generatePrediction, generatePredictionSet,
    generateQuantumRandomNumbers, gqrnAux, getLotteryConfiguration,
    testEngine, testEntropy, mkEngine, defaultQuantumConfig,
    List.mapM, List.mapM.loop]

theorem testEntropyDesc_run_ne_none :
    generatePrediction testEngine testEntropyDesc "x" "d" 6 ≠ none := by
  simp [generatePrediction, generatePredictionSet,
    generateQuantumRandomNumbers, gqrnAux, getLotteryConfiguration,
    testEngine, testEntropyDesc, mkEngine, defaultQuantumConfig,
    List.mapM, List.mapM.loop]

/-- Witness for claim C7: two concrete runs that sample different numbers
but share metric draws yield the same feature-importance mapping. -/
theorem claim_C7_witness :
    (generatePrediction testEngine testEntropy "x" "d" 6).map
        (fun p => p.1.quantumMetrics.featureImportance) =
      (generatePrediction testEngine testEntropyDesc "x" "d" 6).map
        (fun p => p.1.quantumMetrics.featureImportance) := by
  rcases h1 : generatePrediction testEngine testEntropy "x" "d" 6 with _ | p1
  · exact absurd h1 testEntropy_run_ne_none
  · rcases h2 : generatePrediction testEngine testEntropyDesc "x" "d" 6 with
      _ | p2
    · exact absurd h2 testEntropyDesc_run_ne_none
    · simp only [Option.map_some']
      exact congrArg some
        (claim_C7_metrics_independent testEngine testEntropy testEntropyDesc
          "x" "d" 6 p1.1 p2.1 p1.2 p2.2 rfl
          (h1.trans (congrArg some Prod.mk.eta.symm))
          (h2.trans (congrArg some Prod.mk.eta.symm)))

/-- Witness for claim C8: a concrete successful run returns the engine
state it started from. -/
theorem claim_C8_witness :
    (generatePrediction testEngine testEntropy "x" "d" 6).map Prod.snd =
      some testEngine := by
  rcases h : generatePrediction testEngine testEntropy "x" "d" 6 with _ | p
  · exact absurd h testEntropy_run_ne_none
  · simp only [Option.map_some']
    exact congrArg some
      (claim_C8_state_frame testEngine testEntropy "x" "d" 6 p.1 p.2
        (h.trans (congrArg some Prod.mk.eta.symm)))

/-- A heap of JavaScript arrays of strings, for reference/aliasing
properties: a reference is an index, reading a dangling reference yields
the empty array (never exercised under the validity hypothesis). -/
abbrev Heap : Type := List (List String)

/-- Dereference. -/
def heapRead (h : Heap) (r : Nat) : List String := (h[r]?).getD []

/-- In-place mutation of the array behind a reference. -/
def heapWrite (h : Heap) (r : Nat) (v : List String) : Heap := h.set r v

/-- Allocation of a fresh array, returning the new heap and the fresh
reference. -/
def heapAlloc (h : Heap) (v : List String) : Heap × Nat := (h ++ [v], h.length)

/-- Embedding of `getSupportedLotteries`
(src/data/quantumPredictionEngine.ts lines 186-188):
`return [...this.supportedLotteries]` reads the array behind the engine's
`supportedLotteries` field (`ref`) and allocates a fresh array holding the
same elements. -/
def getSupportedLotteries (h : Heap) (ref : Nat) : Heap × Nat :=
  heapAlloc h (heapRead h ref)

theorem heapRead_alloc_last (h : Heap) (v : List String) :
    heapRead (h ++ [v]) h.length = v := by
  simp [heapRead, List.getElem?_concat_length]

theorem heapRead_append_lt (h : Heap) (v : List String) (r : Nat)
    (hr : r < h.length) : heapRead (h ++ [v]) r = heapRead h r := by
  simp [heapRead, List.getElem?_append_left hr]

/-- Claim C9: `getSupportedLotteries` returns a fresh copy of the engine's
supported-lottery array: the copy has the same contents, its reference is
distinct from the engine's internal one, mutating the copy leaves the
internal array unchanged, and a second call returns the same list again. -/
theorem claim_C9_fresh_copy (h : Heap) (ref : Nat) (hv : ref < h.length)
    (v : List String) :
    heapRead (getSupportedLotteries h ref).1 (getSupportedLotteries h ref).2 =
        heapRead h ref ∧
      (getSupportedLotteries h ref).2 ≠ ref ∧
      heapRead
          (heapWrite (getSupportedLotteries h ref).1
            (getSupportedLotteries h ref).2 v) ref =
        heapRead h ref ∧
      heapRead (getSupportedLotteries (getSupportedLotteries h ref).1 ref).1
          (getSupportedLotteries (getSupportedLotteries h ref).1 ref).2 =
        heapRead (getSupportedLotteries h ref).1
          (getSupportedLotteries h ref).2 := by
  have hcopy : heapRead (getSupportedLotteries h ref).1
      (getSupportedLotteries h ref).2 = heapRead h ref :=
    heapRead_alloc_last h (heapRead h ref)
  have hne : (getSupportedLotteries h ref).2 ≠ ref := by
    simp only [getSupportedLotteries, heapAlloc]
    omega
  refine ⟨hcopy, hne, ?_, ?_⟩
  · simp only [getSupportedLotteries, heapAlloc, heapWrite, heapRead,
      List.getElem?_set_ne (by omega : h.length ≠ ref)]
    rw [List.getElem?_append_left hv]
  · simp only [getSupportedLotteries, heapAlloc]
    rw [heapRead_alloc_last, heapRead_append_lt h _ ref hv,
      heapRead_alloc_last]

/-- Witness for claim C9 on the one-array heap `[["a"]]`. -/
theorem claim_C9_witness :
    heapRead (getSupportedLotteries [["a"]] 0).1
        (getSupportedLotteries [["a"]] 0).2 = heapRead [["a"]] 0 ∧
      (getSupportedLotteries [["a"]] 0).2 ≠ 0 :=
  ⟨(claim_C9_fresh_copy [["a"]] 0 (by decide) ["b"]).1,
    (claim_C9_fresh_copy [["a"]] 0 (by decide) ["b"]).2.1⟩

end QuantumFortuna
